import Mathlib

/-!
Verification development for the p2p-chat static file server
(src/server.py).

The repository's own code is a thin subclass of Python's
`http.server.SimpleHTTPRequestHandler` served by `socketserver.TCPServer`:

* `MyHTTPRequestHandler.end_headers` (src/server.py lines 22-27) appends
  three CORS headers before flushing;
* `MyHTTPRequestHandler.log_message` (lines 29-31) prints one line per
  request built from `address_string()`;
* `start_server` (lines 34-50) binds `("", 13883)` with
  `socketserver.TCPServer` and runs `serve_forever`.

All request handling is inherited from the standard library
(`http/server.py`, `posixpath.py`, `socketserver.py`), which the shallow
embedding below translates: `translate_path` / `posixpath.normpath`,
`send_head`, `list_directory`, `send_error`, `guess_type`, and the
`do_<METHOD>` dispatch of `handle_one_request` (the installed handler
defines only `do_GET` and `do_HEAD`).

Modelling conventions:
* the filesystem is a finite association list from absolute path component
  lists to entries (regular files with byte contents and a preformatted
  Last-Modified string, or directories with their entry names);
* bytes are `Nat`, strings are Lean `String`;
* requests are modelled by method and request-target string; request
  headers (e.g. If-Modified-Since) and HTTP/0.9 request lines are not
  modelled, so the conditional 304 path and the header-less 0.9 path are
  out of scope;
* percent-decoding (`urllib.parse.unquote`, applied by `translate_path`
  before normalisation) is not modelled: request paths here stand for the
  already-decoded paths;
* environment-dependent header values (`Server`, `Date`) are inputs.
-/

namespace StaticServer

/-- HTTP request method, as parsed from the request line by
`BaseHTTPRequestHandler.parse_request`. -/
inductive Method
| GET
| HEAD
| POST
| OPTIONS
| other (cmd : String)
deriving DecidableEq

/-- The textual command of a method, `self.command` in the Python code. -/
def Method.command : Method → String
| Method.GET => "GET"
| Method.HEAD => "HEAD"
| Method.POST => "POST"
| Method.OPTIONS => "OPTIONS"
| Method.other c => c

/-- Filesystem entry: a regular file (byte contents plus the preformatted
`Last-Modified` date string derived from its mtime) or a directory with
the names `os.listdir` would return. -/
inductive Entry
| file (contents : List Nat) (lastModified : String)
| directory (names : List String)
deriving DecidableEq

/-- A filesystem: finite association list from absolute path component
lists to entries. -/
abbrev FS : Type := List (List String × Entry)

/-- Path lookup in the modelled filesystem (`os.path.isdir`,
`os.path.isfile`, `open` in the Python code all consult the real
filesystem; here they consult this map). -/
def lookupFS : FS → List String → Option Entry
| [], _ => none
| kv :: rest, key => if kv.1 = key then some kv.2 else lookupFS rest key

/-- Split of a character list at every occurrence of a separator
character, keeping empty pieces, as Python `str.split(sep)` does. -/
def splitOnChar (sep : Char) : List Char → List (List Char)
| [] => [[]]
| c :: cs =>
  if c = sep then [] :: splitOnChar sep cs
  else
    match splitOnChar sep cs with
    | [] => [[c]]
    | w :: ws => (c :: w) :: ws

/-- Join of character lists with a separator list between pieces. -/
def joinWith (sep : List Char) : List (List Char) → List Char
| [] => []
| [w] => w
| w :: ws => w ++ sep ++ joinWith sep ws

/-- Join of strings with a separator string between pieces. -/
def joinStrings (sep : String) : List String → String
| [] => ""
| [x] => x
| x :: xs => x ++ sep ++ joinStrings sep xs

/-- Boolean prefix test on character lists. -/
def charsIsPfx : List Char → List Char → Bool
| [], _ => true
| _ :: _, [] => false
| a :: as, b :: bs => if a = b then charsIsPfx as bs else false

/-- Whether the last character of a string is a slash, Python
`s.endswith(chr 47)`. -/
def lastIsSlash (s : String) : Bool :=
  match s.data.getLast? with
  | some c => c = '/'
  | none => false

/-- Lowercasing of one ASCII character (Python `str.lower` restricted to
the ASCII range, which covers every table key it is compared against). -/
def lowerChar (c : Char) : Char :=
  if 65 ≤ c.toNat ∧ c.toNat ≤ 90 then Char.ofNat (c.toNat + 32) else c

/-- Lowercasing of a string. -/
def lowerStr (s : String) : String :=
  String.mk (s.data.map lowerChar)

/-- The part of the request target before the first `?` and before the
first `#`: `translate_path` computes it by splitting on the two
separators, and `urllib.parse.urlsplit(...).path` agrees with it for
server-relative targets. -/
def pathPart (p : String) : String :=
  String.mk ((splitOnChar '#' ((splitOnChar '?' p.data).headD [])).headD [])

/-- The query component of the request target, as `urllib.parse.urlsplit`
returns it: the part after the first `?` that precedes the fragment. -/
def queryPart (p : String) : String :=
  String.mk (joinWith [ '?' ] ((splitOnChar '?' ((splitOnChar '#' p.data).headD [])).tail))

/-- The fragment component of the request target: everything after the
first `#`. -/
def fragmentPart (p : String) : String :=
  String.mk (joinWith [ '#' ] ((splitOnChar '#' p.data).tail))

/-- Python `str.rstrip()` restricted to whitespace removal. -/
def rstrip (s : String) : String :=
  String.mk ((s.data.reverse.dropWhile Char.isWhitespace).reverse)

/-- Component pass of `posixpath.normpath` (posixpath.py): empty and `.`
components are dropped; `..` pops the previous component, except that a
leading `..` of a relative path survives and a `..` at the root of an
absolute path is discarded. -/
def normComps (initialSlashes : Bool) (comps : List String) : List String :=
  comps.foldl (fun acc comp =>
    if comp = "" ∨ comp = "." then acc
    else if comp ≠ ".." ∨ (¬ initialSlashes ∧ acc = []) ∨ acc.getLast? = some ".." then
      acc ++ [comp]
    else acc.dropLast) []

/-- Trailing-slash flag computed by `SimpleHTTPRequestHandler.translate_path`:
after dropping query and fragment, `path.rstrip().endswith(chr 47)`. -/
def trailingSlash (p : String) : Bool :=
  lastIsSlash (rstrip (pathPart p))

/-- Component list produced by `SimpleHTTPRequestHandler.translate_path`
relative to the configured directory: query and fragment are dropped, the
path is normalised by `posixpath.normpath`, split on `/`, and any
remaining `.` or `..` components are ignored, the rest being joined under
`self.directory`.  The translated absolute path is `root ++` this list. -/
def translate_path (p : String) : List String :=
  (normComps (charsIsPfx [ '/' ] (pathPart p).data)
      ((splitOnChar '/' (pathPart p).data).map String.mk)).filter
    (fun w => !(w == "." || w == ".."))

/-- Redirect target built in `send_head` for a directory path lacking its
trailing slash: `urlunsplit` of the split request target with `/` appended
to the path component (query and fragment preserved). -/
def redirectLocation (p : String) : String :=
  pathPart p ++ "/" ++
    (if queryPart p = "" then "" else "?" ++ queryPart p) ++
    (if fragmentPart p = "" then "" else "#" ++ fragmentPart p)

/-- UTF-8 encoding of a single code point. -/
def utf8EncodeNat (n : Nat) : List Nat :=
  if n < 128 then [n]
  else if n < 2048 then [192 ||| (n >>> 6), 128 ||| (n &&& 63)]
  else if n < 65536 then
    [224 ||| (n >>> 12), 128 ||| ((n >>> 6) &&& 63), 128 ||| (n &&& 63)]
  else
    [240 ||| (n >>> 18), 128 ||| ((n >>> 12) &&& 63),
     128 ||| ((n >>> 6) &&& 63), 128 ||| (n &&& 63)]

/-- UTF-8 bytes of a string, modelling Python `str.encode`. -/
def utf8Bytes (s : String) : List Nat :=
  s.data.flatMap (fun c => utf8EncodeNat c.toNat)

/-- Escape of one character as Python `html.escape(s, quote=False)` does
(its sequential replacements of `&`, `<`, `>` act characterwise). -/
def escapeChar (c : Char) : List Char :=
  if c = '&' then "&amp;".data
  else if c = '<' then "&lt;".data
  else if c = '>' then "&gt;".data
  else [c]

/-- Python `html.escape(s, quote=False)`: escape `&`, `<`, `>`. -/
def htmlEscapeNoQuote (s : String) : String :=
  String.mk (s.data.flatMap escapeChar)

/-- A single quote character, used by Python `%r` formatting of a string. -/
def squote : String := String.singleton (Char.ofNat 39)

/-- Long explanation from `BaseHTTPRequestHandler.responses` (built from
`http.HTTPStatus`) for the status codes this server can emit via
`send_error`. -/
def errorExplain (code : Nat) : String :=
  if code = 404 then "Nothing matches the given URI"
  else if code = 501 then "Server does not support this operation"
  else "???"

/-- The `DEFAULT_ERROR_MESSAGE` template of http/server.py, with the
`code`, `message` and `explain` fields substituted. -/
def error_message_format (code : Nat) (message explain : String) : String :=
  "<!DOCTYPE HTML>\n<html lang=\"en\">\n    <head>\n        <meta charset=\"utf-8\">\n        <title>Error response</title>\n    </head>\n    <body>\n        <h1>Error response</h1>\n        <p>Error code: " ++
    toString code ++
    "</p>\n        <p>Message: " ++ message ++
    ".</p>\n        <p>Error code explanation: " ++ toString code ++
    " - " ++ explain ++ ".</p>\n    </body>\n</html>\n"

/-- An HTTP response as observed on the wire: status code, header list in
emission order, body bytes.  The status line text and header folding are
not modelled. -/
structure Response where
  status : Nat
  headers : List (String × String)
  body : List Nat
deriving DecidableEq

/-- Environment-dependent header values: the `Server:` software string and
the formatted `Date:` value that `send_response` attaches. -/
structure Env where
  serverSoftware : String
  date : String
deriving DecidableEq

/-- The three headers appended by `MyHTTPRequestHandler.end_headers`
(src/server.py lines 22-27), in emission order. -/
def corsHeaders : List (String × String) :=
  [("Access-Control-Allow-Origin", "*"),
   ("Access-Control-Allow-Methods", "GET, POST, OPTIONS"),
   ("Access-Control-Allow-Headers", "Content-Type")]

/-- Finalisation of the header block: the overridden `end_headers` sends
the three CORS headers after whatever headers the handler already sent,
then flushes via `super().end_headers()`. -/
def end_headers (pre : List (String × String)) : List (String × String) :=
  pre ++ corsHeaders

/-- The two standard headers `send_response` adds to every non-error and
error response alike: `Server` and `Date`. -/
def stdHeaders (e : Env) : List (String × String) :=
  [("Server", e.serverSoftware), ("Date", e.date)]

/-- Body of an error response: the template rendered with the HTML-escaped
message and the catalogue explanation, UTF-8 encoded
(`BaseHTTPRequestHandler.send_error`). -/
def errorBody (code : Nat) (message : String) : List Nat :=
  utf8Bytes (error_message_format code (htmlEscapeNoQuote message)
    (htmlEscapeNoQuote (errorExplain code)))

/-- Model of `BaseHTTPRequestHandler.send_error`: status line via
`send_response` (which adds `Server` and `Date`), then
`Connection: close`; for statuses that allow a body also
`Content-Type: text/html;charset=utf-8` and `Content-Length`, and the
HTML error page as body unless the command was HEAD. -/
def send_error (e : Env) (isHead : Bool) (code : Nat) (message : String) : Response :=
  if 200 ≤ code ∧ code ≠ 204 ∧ code ≠ 205 ∧ code ≠ 304 then
    { status := code
    , headers := end_headers (stdHeaders e ++
        [("Connection", "close"),
         ("Content-Type", "text/html;charset=utf-8"),
         ("Content-Length", toString (errorBody code message).length)])
    , body := if isHead then [] else errorBody code message }
  else
    { status := code
    , headers := end_headers (stdHeaders e ++ [("Connection", "close")])
    , body := [] }

/-- Extension of a path component, as `posixpath.splitext` computes it on
the basename: the suffix from the last dot, provided some earlier
character of the basename is not a dot. -/
def extOf (name : String) : String :=
  if (name.data.reverse.takeWhile (fun c => c ≠ '.')).length = name.data.length then ""
  else
    if ((name.data.reverse.drop
          ((name.data.reverse.takeWhile (fun c => c ≠ '.')).length + 1))).any
        (fun c => c ≠ '.') then
      String.mk ('.' :: (name.data.reverse.takeWhile (fun c => c ≠ '.')).reverse)
    else ""

/-- Extension-to-MIME table consulted by
`SimpleHTTPRequestHandler.guess_type` (its own `extensions_map` merged
with the `mimetypes` defaults it falls back to), restricted to common
entries; unknown extensions map to `application/octet-stream`. -/
def mimeFor : String → String
| ".html" => "text/html"
| ".htm" => "text/html"
| ".js" => "text/javascript"
| ".mjs" => "text/javascript"
| ".css" => "text/css"
| ".json" => "application/json"
| ".txt" => "text/plain"
| ".png" => "image/png"
| ".jpg" => "image/jpeg"
| ".jpeg" => "image/jpeg"
| ".gif" => "image/gif"
| ".svg" => "image/svg+xml"
| ".gz" => "application/gzip"
| ".bz2" => "application/x-bzip2"
| ".xz" => "application/x-xz"
| _ => "application/octet-stream"

/-- Model of `SimpleHTTPRequestHandler.guess_type`: the content type is a
function of the file extension alone (looked up case-insensitively),
defaulting to `application/octet-stream`. -/
def guess_type (name : String) : String :=
  mimeFor (lowerStr (extOf name))

/-- Case-insensitive lexicographic order on character lists, for the
`list.sort(key=lambda a: a.lower())` of `list_directory`. -/
def charListLe : List Char → List Char → Bool
| [], _ => true
| _ :: _, [] => false
| a :: as, b :: bs => if a = b then charListLe as bs else decide (a < b)

/-- Comparison key of `list_directory`: lowercase lexicographic order. -/
def sortKeyLe (a b : String) : Bool :=
  charListLe (lowerStr a).data (lowerStr b).data

/-- Stable insertion used to model `list.sort(key=lambda a: a.lower())`. -/
def insertSorted (x : String) : List String → List String
| [] => [x]
| y :: ys => if sortKeyLe x y then x :: y :: ys else y :: insertSorted x ys

/-- Sorted directory names as `list_directory` orders them. -/
def sortByLower (l : List String) : List String :=
  l.foldr insertSorted []

/-- One `<li>` line of the directory listing (URL-quoting of the link and
the trailing `/` decoration of subdirectory names are not modelled). -/
def listingItem (name : String) : String :=
  "<li><a href=\"" ++ name ++ "\">" ++ htmlEscapeNoQuote name ++ "</a></li>"

/-- HTML page produced by `SimpleHTTPRequestHandler.list_directory` for a
directory without an index file. -/
def listingPage (displaypath : String) (names : List String) : String :=
  joinStrings "\n"
    (["<!DOCTYPE HTML>", "<html lang=\"en\">", "<head>",
      "<meta charset=\"utf-8\">",
      "<title>Directory listing for " ++ htmlEscapeNoQuote displaypath ++
        "</title>\n</head>",
      "<body>\n<h1>Directory listing for " ++ htmlEscapeNoQuote displaypath ++
        "</h1>",
      "<hr>\n<ul>"] ++
      (sortByLower names).map listingItem ++
      ["</ul>\n<hr>\n</body>\n</html>\n"])

/-- Successful file response from `send_head`: 200 with `Content-type`,
`Content-Length` and `Last-Modified`, the body being the file bytes
(omitted for HEAD by `do_HEAD` not copying the file). -/
def fileResponse (e : Env) (isHead : Bool) (name : String) (contents : List Nat)
    (lastModified : String) : Response :=
  { status := 200
  , headers := end_headers (stdHeaders e ++
      [("Content-type", guess_type name),
       ("Content-Length", toString contents.length),
       ("Last-Modified", lastModified)])
  , body := if isHead then [] else contents }

/-- Redirect response from `send_head` for a directory path without a
trailing slash: 301 with `Location` and `Content-Length: 0`, no body. -/
def redirectResponse (e : Env) (location : String) : Response :=
  { status := 301
  , headers := end_headers (stdHeaders e ++
      [("Location", location), ("Content-Length", "0")])
  , body := [] }

/-- Directory listing response from `list_directory`: 200 with
`Content-type: text/html; charset=utf-8` and `Content-Length`, body the
listing page (omitted for HEAD). -/
def listingResponse (e : Env) (isHead : Bool) (displaypath : String)
    (names : List String) : Response :=
  { status := 200
  , headers := end_headers (stdHeaders e ++
      [("Content-type", "text/html; charset=utf-8"),
       ("Content-Length", toString (utf8Bytes (listingPage displaypath names)).length)])
  , body := if isHead then [] else utf8Bytes (listingPage displaypath names) }

/-- Model of `SimpleHTTPRequestHandler.send_head` together with the body
copy done by `do_GET` / skipped by `do_HEAD`: resolve the translated path
in the filesystem; directories redirect when the request path lacks its
trailing slash, else serve `index.html` / `index.htm` or the listing;
regular files serve 200 unless the translated path kept a trailing slash;
anything else is 404 `File not found`. -/
def send_head (fs : FS) (root : List String) (e : Env) (isHead : Bool)
    (p : String) : Response :=
  match lookupFS fs (root ++ translate_path p) with
  | some (Entry.directory names) =>
      if lastIsSlash (pathPart p) then
        match lookupFS fs (root ++ translate_path p ++ ["index.html"]) with
        | some (Entry.file c lm) => fileResponse e isHead "index.html" c lm
        | _ =>
          match lookupFS fs (root ++ translate_path p ++ ["index.htm"]) with
          | some (Entry.file c lm) => fileResponse e isHead "index.htm" c lm
          | _ => listingResponse e isHead p names
      else redirectResponse e (redirectLocation p)
  | some (Entry.file c lm) =>
      if trailingSlash p then send_error e isHead 404 "File not found"
      else fileResponse e isHead ((translate_path p).getLastD "") c lm
  | none => send_error e isHead 404 "File not found"

/-- Model of `do_GET`: `send_head` plus `copyfile` of the body. -/
def do_GET (fs : FS) (root : List String) (e : Env) (p : String) : Response :=
  send_head fs root e false p

/-- Model of `do_HEAD`: `send_head` without copying the body. -/
def do_HEAD (fs : FS) (root : List String) (e : Env) (p : String) : Response :=
  send_head fs root e true p

/-- Method dispatch of `BaseHTTPRequestHandler.handle_one_request` for the
installed handler class, which defines only `do_GET` and `do_HEAD`: any
other command is answered by
`send_error(501, "Unsupported method (%r)" % self.command)`. -/
def handle_one_request (fs : FS) (root : List String) (e : Env) (m : Method)
    (p : String) : Response :=
  match m with
  | Method.GET => do_GET fs root e p
  | Method.HEAD => do_HEAD fs root e p
  | mm => send_error e false 501
      ("Unsupported method (" ++ squote ++ mm.command ++ squote ++ ")")

/-- Fixed port constant `PORT` of src/server.py line 13. -/
def PORT : Nat := 13883

/-- Outcome of process start-up.  `exitAddrInUse` models the `OSError`
raised while binding: `TCPServer.__init__` closes the socket on failure
and the exception propagates uncaught out of `start_server` and
`__main__`, so the interpreter exits non-zero with no listening socket.
`started host port` models a successful bind of `(host, port)` followed by
`serve_forever` (host `""` is the all-interfaces wildcard). -/
inductive StartResult
| exitAddrInUse
| started (host : String) (port : Nat)
deriving DecidableEq

/-- Model of `start_server` (src/server.py lines 34-50): construct
`socketserver.TCPServer(("", PORT), MyHTTPRequestHandler)` and serve.
`portFree` is whether the bind succeeds; `rootDirExists` is whether the
configured `DIRECTORY` exists on disk at start-up.  The source consults
the filesystem nowhere before serving, so the result does not depend on
`rootDirExists`. -/
def start_server (portFree : Bool) (_rootDirExists : Bool) : StartResult :=
  if portFree then StartResult.started "" PORT else StartResult.exitAddrInUse

/-- Lifecycle state of the serving process
(`STOPPED -> LISTENING -> STOPPED`). -/
inductive ServerState
| listening
| stopped
deriving DecidableEq

/-- One request handled by the `serve_forever` loop: per-request outcomes
are turned into HTTP responses by `handle_one_request` (`send_error`
catches nothing fatal), so handling a request always leaves the process
listening; a stopped server answers nothing. -/
def serve_step (fs : FS) (root : List String) (e : Env) (s : ServerState)
    (m : Method) (p : String) : ServerState × Option Response :=
  match s with
  | ServerState.listening =>
      (ServerState.listening, some (handle_one_request fs root e m p))
  | ServerState.stopped => (ServerState.stopped, none)

/-- Model of `BaseHTTPRequestHandler.address_string` as used by the
overridden `log_message`: it returns `self.client_address[0]`, the client
host only; the port element of the address pair is unused. -/
def address_string (clientHost : String) (_clientPort : Nat) : String :=
  clientHost

/-- The log line printed by `MyHTTPRequestHandler.log_message`
(src/server.py lines 29-31) for a request whose formatted summary is
`summary`. -/
def log_message (clientHost : String) (clientPort : Nat) (summary : String) : String :=
  "[请求] " ++ address_string clientHost clientPort ++ " - " ++ summary

/-- Completion times of connections under `socketserver.TCPServer`, whose
`process_request` calls `finish_request` synchronously in the accept loop
(socketserver.py; the source uses plain `TCPServer`, not
`ThreadingMixIn`): the connection needing `d` time units starts only after
every earlier connection has finished, the first starting at time `t`. -/
def finishTimesFrom : Nat → List Nat → List Nat
| _, [] => []
| t, d :: ds => (t + d) :: finishTimesFrom (t + d) ds

/-- Completion times of a batch of connections accepted at time 0, in
arrival order, each entry of the input being the handling duration of one
connection. -/
def finishTimes (durations : List Nat) : List Nat :=
  finishTimesFrom 0 durations

/-- Header-name test for the CORS header family. -/
def isCorsName (s : String) : Bool :=
  charsIsPfx "Access-Control-".data s.data

/-- Boolean contiguous-sublist test on character lists. -/
def charsInfix (needle : List Char) : List Char → Bool
| [] => charsIsPfx needle []
| c :: cs => charsIsPfx needle (c :: cs) || charsInfix needle cs

/-- Auxiliary: when no header of the pre-CORS block has a name in the
`Access-Control-` family, the finalised block filters to exactly the three
CORS headers. -/
theorem filter_cors_of_all_not (pre : List (String × String))
    (h : pre.all (fun x => !(isCorsName x.1)) = true) :
    (end_headers pre).filter (fun x => isCorsName x.1) = corsHeaders := by
  have h2 : pre.filter (fun x => isCorsName x.1) = [] := by
    rw [List.filter_eq_nil_iff]
    intro a ha
    simpa using List.all_eq_true.mp h a ha
  rw [end_headers, List.filter_append, h2, List.nil_append]
  rfl

/-- Auxiliary: error responses carry exactly the three CORS headers. -/
theorem send_error_filter (e : Env) (ih : Bool) (code : Nat) (msg : String) :
    (send_error e ih code msg).headers.filter (fun x => isCorsName x.1) = corsHeaders := by
  unfold send_error
  split
  · exact filter_cors_of_all_not _ rfl
  · exact filter_cors_of_all_not _ rfl

/-- Auxiliary: file responses carry exactly the three CORS headers. -/
theorem fileResponse_filter (e : Env) (ih : Bool) (n : String) (c : List Nat)
    (lm : String) :
    (fileResponse e ih n c lm).headers.filter (fun x => isCorsName x.1) = corsHeaders :=
  filter_cors_of_all_not _ rfl

/-- Auxiliary: redirect responses carry exactly the three CORS headers. -/
theorem redirectResponse_filter (e : Env) (location : String) :
    (redirectResponse e location).headers.filter (fun x => isCorsName x.1) = corsHeaders :=
  filter_cors_of_all_not _ rfl

/-- Auxiliary: listing responses carry exactly the three CORS headers. -/
theorem listingResponse_filter (e : Env) (ih : Bool) (dp : String)
    (names : List String) :
    (listingResponse e ih dp names).headers.filter (fun x => isCorsName x.1) = corsHeaders :=
  filter_cors_of_all_not _ rfl

/-- Auxiliary: every `send_head` outcome carries exactly the three CORS
headers. -/
theorem send_head_filter (fs : FS) (root : List String) (e : Env) (ih : Bool)
    (p : String) :
    (send_head fs root e ih p).headers.filter (fun x => isCorsName x.1) = corsHeaders := by
  unfold send_head
  split
  · split
    · split
      · exact fileResponse_filter _ _ _ _ _
      · split
        · exact fileResponse_filter _ _ _ _ _
        · exact listingResponse_filter _ _ _ _
    · exact redirectResponse_filter _ _
  · split
    · exact send_error_filter _ _ _ _
    · exact fileResponse_filter _ _ _ _ _
  · exact send_error_filter _ _ _ _

/-- Auxiliary: every response of the request handler carries exactly the
three CORS headers. -/
theorem handle_one_request_filter (fs : FS) (root : List String) (e : Env)
    (m : Method) (p : String) :
    (handle_one_request fs root e m p).headers.filter (fun x => isCorsName x.1) =
      corsHeaders := by
  cases m with
  | GET => exact send_head_filter _ _ _ _ _
  | HEAD => exact send_head_filter _ _ _ _ _
  | POST => exact send_error_filter _ _ _ _
  | OPTIONS => exact send_error_filter _ _ _ _
  | other c => exact send_error_filter _ _ _ _

/-- C1: for every response the server sends, regardless of request path,
method, or response status, the headers in the `Access-Control-` family
are exactly the three fixed CORS headers
`Access-Control-Allow-Origin: *`,
`Access-Control-Allow-Methods: GET, POST, OPTIONS` and
`Access-Control-Allow-Headers: Content-Type`, appended by the overridden
`end_headers`. -/
theorem c1_every_response_carries_exactly_the_cors_headers (fs : FS)
    (root : List String) (e : Env) (m : Method) (p : String) :
    (handle_one_request fs root e m p).headers.filter (fun x => isCorsName x.1) =
      corsHeaders :=
  handle_one_request_filter fs root e m p

/-- C2 counterexample: the claim says an OPTIONS request returns status
200, but the handler class defines no `do_OPTIONS`, so the dispatch in
`handle_one_request` answers a concrete OPTIONS request with 501, not
200. -/
theorem c2_counterexample_options_is_501_not_200 :
    (handle_one_request [] ["srv", "src"] ⟨"S", "D"⟩ Method.OPTIONS "/").status = 501 ∧
    (handle_one_request [] ["srv", "src"] ⟨"S", "D"⟩ Method.OPTIONS "/").status ≠ 200 :=
  ⟨rfl, by decide⟩

/-- C2 (amended): for every OPTIONS request, on any path, the server
responds with status 501 and the `Unsupported method` HTML error body
(there is no `do_OPTIONS` implementation), and the response carries
exactly the three CORS headers. -/
theorem c2_amended_options_answered_501 (fs : FS) (root : List String)
    (e : Env) (p : String) :
    (handle_one_request fs root e Method.OPTIONS p).status = 501 ∧
    (handle_one_request fs root e Method.OPTIONS p).body =
      errorBody 501 ("Unsupported method (" ++ squote ++ "OPTIONS" ++ squote ++ ")") ∧
    (handle_one_request fs root e Method.OPTIONS p).headers.filter
      (fun x => isCorsName x.1) = corsHeaders :=
  ⟨rfl, rfl, send_error_filter _ _ _ _⟩

/-- C3: for every request path that translates, with no trailing slash,
to an existing regular file under the root directory, a GET request
returns status 200, a body byte-identical to the file contents, and a
`Content-type` header computed by `guess_type` from the file name's
extension. -/
theorem c3_get_existing_file_is_200_with_contents (fs : FS)
    (root : List String) (e : Env) (p : String) (c : List Nat) (lm : String)
    (hts : trailingSlash p = false)
    (hf : lookupFS fs (root ++ translate_path p) = some (Entry.file c lm)) :
    (handle_one_request fs root e Method.GET p).status = 200 ∧
    (handle_one_request fs root e Method.GET p).body = c ∧
    ("Content-type", guess_type ((translate_path p).getLastD "")) ∈
      (handle_one_request fs root e Method.GET p).headers := by
  have hr : handle_one_request fs root e Method.GET p =
      fileResponse e false ((translate_path p).getLastD "") c lm := by
    unfold handle_one_request do_GET send_head
    rw [hf]
    simp [hts]
  rw [hr]
  refine ⟨rfl, rfl, ?_⟩
  simp [fileResponse, end_headers, stdHeaders]

/-- C3 witness: a concrete filesystem with `index.html` under the root
served byte-identically with status 200. -/
theorem c3_witness :
    (handle_one_request [(["srv", "src", "index.html"], Entry.file [60, 104] "LM")]
        ["srv", "src"] ⟨"S", "D"⟩ Method.GET "/index.html").status = 200 ∧
    (handle_one_request [(["srv", "src", "index.html"], Entry.file [60, 104] "LM")]
        ["srv", "src"] ⟨"S", "D"⟩ Method.GET "/index.html").body = [60, 104] ∧
    ("Content-type",
        guess_type ((translate_path "/index.html").getLastD "")) ∈
      (handle_one_request [(["srv", "src", "index.html"], Entry.file [60, 104] "LM")]
        ["srv", "src"] ⟨"S", "D"⟩ Method.GET "/index.html").headers :=
  c3_get_existing_file_is_200_with_contents
    [(["srv", "src", "index.html"], Entry.file [60, 104] "LM")]
    ["srv", "src"] ⟨"S", "D"⟩ "/index.html" [60, 104] "LM" (by decide) (by decide)

/-- C4: the response to any request depends only on the filesystem
entries whose absolute paths extend the root directory: two filesystems
agreeing on every path under the root produce identical responses, so no
content of a file outside the root boundary can reach any response
(`translate_path` discards `..` components, keeping every lookup under
the root). -/
theorem c4_response_reads_only_under_root (fs1 fs2 : FS) (root : List String)
    (e : Env) (m : Method) (p : String)
    (h : ∀ k, root <+: k → lookupFS fs1 k = lookupFS fs2 k) :
    handle_one_request fs1 root e m p = handle_one_request fs2 root e m p := by
  have hmain := h (root ++ translate_path p) ⟨translate_path p, rfl⟩
  have hihtml := h (root ++ translate_path p ++ ["index.html"])
    ⟨translate_path p ++ ["index.html"],
      (List.append_assoc root (translate_path p) ["index.html"]).symm⟩
  have hihtm := h (root ++ translate_path p ++ ["index.htm"])
    ⟨translate_path p ++ ["index.htm"],
      (List.append_assoc root (translate_path p) ["index.htm"]).symm⟩
  cases m with
  | GET => unfold handle_one_request do_GET send_head; rw [hmain, hihtml, hihtm]
  | HEAD => unfold handle_one_request do_HEAD send_head; rw [hmain, hihtml, hihtm]
  | POST => rfl
  | OPTIONS => rfl
  | other c => rfl

/-- C4 witness: a traversal request `/../../etc/passwd` is answered
identically whether or not a file `/etc/passwd` outside the root exists,
so its contents are never served. -/
theorem c4_witness :
    handle_one_request [(["etc", "passwd"], Entry.file [112, 119] "LM")]
        ["srv", "src"] ⟨"S", "D"⟩ Method.GET "/../../etc/passwd" =
      handle_one_request [] ["srv", "src"] ⟨"S", "D"⟩ Method.GET "/../../etc/passwd" :=
  c4_response_reads_only_under_root
    [(["etc", "passwd"], Entry.file [112, 119] "LM")] [] ["srv", "src"]
    ⟨"S", "D"⟩ Method.GET "/../../etc/passwd"
    (fun k hk => by
      obtain ⟨t, rfl⟩ := hk
      simp [lookupFS])

/-- C5 counterexample: the log line printed by `log_message` contains the
client host only — `address_string` returns `client_address[0]` and the
port never appears — so at a concrete client address the line differs
from the claimed `ip:port` form. -/
theorem c5_counterexample_log_line_has_no_port :
    log_message "1.2.3.4" 5678 "GET / HTTP/1.1 200 -" =
      "[请求] 1.2.3.4 - GET / HTTP/1.1 200 -" ∧
    log_message "1.2.3.4" 5678 "GET / HTTP/1.1 200 -" ≠
      "[请求] 1.2.3.4:5678 - GET / HTTP/1.1 200 -" :=
  ⟨rfl, by decide⟩

/-- C5 (amended): for every request the log line written to standard
output has the form `[请求] <client-ip> - <request-line-or-status
summary>`: the client port does not appear. -/
theorem c5_amended_log_line_format (clientHost : String) (clientPort : Nat)
    (summary : String) :
    log_message clientHost clientPort summary =
      "[请求] " ++ clientHost ++ " - " ++ summary :=
  rfl

/-- C6 counterexample: with the port free and the root directory missing,
`start_server` still binds and listens (it never consults the filesystem
before serving), contradicting the claimed fail-fast exit. -/
theorem c6_counterexample_starts_despite_missing_root :
    start_server true false = StartResult.started "" 13883 :=
  rfl

/-- C6 (amended): the process performs no start-up check of the root
directory: whether or not the root exists it binds port 13883 and
listens, and a request for a file under the missing root is answered with
a per-request 404. -/
theorem c6_amended_no_startup_root_check (rootDirExists : Bool) (e : Env) :
    start_server true rootDirExists = StartResult.started "" 13883 ∧
    (handle_one_request [] ["srv", "src"] e Method.GET "/index.html").status = 404 :=
  ⟨rfl, rfl⟩

/-- Auxiliary: completion times under the synchronous accept loop are the
prefix sums of the handling durations, shifted by the start time. -/
theorem finishTimesFrom_getElem? (t : Nat) (ds : List Nat) (i : Nat) :
    (finishTimesFrom t ds).get? i =
      if i < ds.length then some (t + (ds.take (i + 1)).sum) else none := by
  induction ds generalizing t i with
  | nil => simp [finishTimesFrom]
  | cons d ds ih =>
    cases i with
    | zero => simp [finishTimesFrom]
    | succ n =>
      simp only [finishTimesFrom, List.get?_cons_succ, ih (t + d) n,
        List.length_cons, List.take_succ_cons, List.sum_cons]
      by_cases hn : n < ds.length
      · rw [if_pos hn, if_pos (Nat.succ_lt_succ hn)]
        congr 1
        omega
      · rw [if_neg hn, if_neg (fun hc => hn (Nat.lt_of_succ_lt_succ hc))]

/-- C7 counterexample: under plain `socketserver.TCPServer` connections
are handled one after another on a single thread, so the completion time
of the second connection depends on the first client's handling duration:
with a slow first client taking 100 units the second finishes at 101,
while with a fast first client it finishes at 1 — the first client blocks
the second, contradicting the claimed per-connection worker. -/
theorem c7_counterexample_slow_client_delays_next :
    (finishTimes [100, 1]).get? 1 = some 101 ∧
    (finishTimes [0, 1]).get? 1 = some 1 :=
  ⟨rfl, rfl⟩

/-- C7 (amended): `start_server` uses plain `socketserver.TCPServer`
(no `ThreadingMixIn`), whose accept loop calls `process_request`
synchronously: connections are handled strictly sequentially, connection
`i` completing only at the sum of the handling durations of connections
`0..i`, so a slow client delays every later connection. -/
theorem c7_amended_connections_sequential (durations : List Nat) (i : Nat) :
    (finishTimes durations).get? i =
      if i < durations.length then some ((durations.take (i + 1)).sum) else none := by
  simpa using finishTimesFrom_getElem? 0 durations i

/-- C8: if binding TCP port 13883 fails because the port is taken, the
process exits non-zero with no listening socket (the bind `OSError`
propagates uncaught); otherwise it listens on the wildcard address `""`
(all interfaces) at port 13883. -/
theorem c8_port_busy_fail_fast_else_bind_all_interfaces (rootDirExists : Bool) :
    start_server false rootDirExists = StartResult.exitAddrInUse ∧
    start_server true rootDirExists = StartResult.started "" 13883 :=
  ⟨rfl, rfl⟩

/-- C9: a GET request whose translated path names no existing entry under
the root is answered with status 404, and handling it leaves the server
listening: the error is surfaced as a response, not a crash. -/
theorem c9_get_nonexistent_is_404_and_recovered (fs : FS) (root : List String)
    (e : Env) (p : String)
    (h : lookupFS fs (root ++ translate_path p) = none) :
    (handle_one_request fs root e Method.GET p).status = 404 ∧
    serve_step fs root e ServerState.listening Method.GET p =
      (ServerState.listening, some (handle_one_request fs root e Method.GET p)) := by
  constructor
  · unfold handle_one_request do_GET send_head
    rw [h]
    rfl
  · rfl

/-- C9 witness: a concrete GET for a missing path on an empty root. -/
theorem c9_witness :
    (handle_one_request [] ["srv", "src"] ⟨"S", "D"⟩ Method.GET "/missing.html").status = 404 ∧
    serve_step [] ["srv", "src"] ⟨"S", "D"⟩ ServerState.listening Method.GET "/missing.html" =
      (ServerState.listening,
        some (handle_one_request [] ["srv", "src"] ⟨"S", "D"⟩ Method.GET "/missing.html")) :=
  c9_get_nonexistent_is_404_and_recovered [] ["srv", "src"] ⟨"S", "D"⟩
    "/missing.html" rfl

/-- C10: every POST request, on any path, is answered by the 501
`Unsupported method` error (there is no `do_POST` implementation),
carrying exactly the three CORS headers — while the
`Access-Control-Allow-Methods` header of that very response still
advertises POST among the allowed methods. -/
theorem c10_post_is_501_despite_advertised (fs : FS) (root : List String)
    (e : Env) (p : String) :
    (handle_one_request fs root e Method.POST p).status = 501 ∧
    (handle_one_request fs root e Method.POST p).body =
      errorBody 501 ("Unsupported method (" ++ squote ++ "POST" ++ squote ++ ")") ∧
    (handle_one_request fs root e Method.POST p).headers.filter
      (fun x => isCorsName x.1) = corsHeaders ∧
    ("Access-Control-Allow-Methods", "GET, POST, OPTIONS") ∈
      (handle_one_request fs root e Method.POST p).headers ∧
    charsInfix "POST".data "GET, POST, OPTIONS".data = true := by
  refine ⟨rfl, rfl, send_error_filter _ _ _ _, ?_, rfl⟩
  have hmem : ("Access-Control-Allow-Methods", "GET, POST, OPTIONS") ∈
      (send_error e false 501
        ("Unsupported method (" ++ squote ++ "POST" ++ squote ++ ")")).headers.filter
        (fun x => isCorsName x.1) := by
    rw [send_error_filter]
    decide
  exact List.mem_of_mem_filter hmem

end StaticServer
